import Mathlib

/-!
Verification of the KDP Cover Geometry and Layout Engine of the E-Book-Maker
repository, shallowly embedded from modules/kdp_calculator.py and
modules/covers/cover_generator.py.

Modelling conventions:
* Python float arithmetic is modelled over the exact rationals.
* Python int is modelled as the integers.
* int(x), which truncates toward zero, is pyInt.
* round(x, 3), which rounds to the nearest multiple of 1/1000 with ties
  going to the even multiple (the documented Python rounding rule), is
  pyRound3 built on pyRoundHalfEven.
* The floor division a // b of the source always has the positive literal
  divisor 2; for a positive divisor Python floor division coincides with
  the Euclidean division of the integers, so it is written a / 2.
* A raised exception is modelled by the error side of Except, recording
  the exception class and message of the corresponding raise statement.
-/

/-- A raised Python exception: its class name and its message. -/
structure PyError where
  cls : String
  msg : String
deriving Repr, DecidableEq

/-- Python int(x): truncation toward zero. -/
def pyInt (x : ℚ) : ℤ :=
  if 0 ≤ x then ⌊x⌋ else -⌊-x⌋

/-- Round a rational to the nearest integer, ties to the even integer
(the rule of the Python built-in round). -/
def pyRoundHalfEven (x : ℚ) : ℤ :=
  if x - ⌊x⌋ < 1/2 then ⌊x⌋
  else if 1/2 < x - ⌊x⌋ then ⌊x⌋ + 1
  else if ⌊x⌋ % 2 = 0 then ⌊x⌋ else ⌊x⌋ + 1

/-- Python round(x, 3): round to three decimal places. -/
def pyRound3 (x : ℚ) : ℚ :=
  (pyRoundHalfEven (x * 1000) : ℚ) / 1000

/-! ## Constants of modules/kdp_calculator.py -/

/-- Spine thickness per page, by paper type (kdp_calculator.py lines 26-31). -/
def SPINE_WIDTH_FORMULAS : List (String × ℚ) :=
  [("white", 0.002252), ("cream", 0.0025),
   ("color", 0.002347), ("standard_color", 0.002252)]

/-- Standard bleed for all covers (kdp_calculator.py line 34). -/
def BLEED_SIZE : ℚ := 0.125

/-- Minimum page count (kdp_calculator.py line 37). -/
def MIN_PAGE_COUNT : ℤ := 24

/-- Maximum page count (kdp_calculator.py line 38). -/
def MAX_PAGE_COUNT : ℤ := 828

/-- Gutter margins by page count range (kdp_calculator.py lines 75-81). -/
def GUTTER_MARGINS : List (ℤ × ℤ × ℚ) :=
  [(24, 150, 0.375), (151, 300, 0.5), (301, 500, 0.625),
   (501, 700, 0.75), (701, 828, 0.875)]

/-! ## KDPCalculator (kdp_calculator.py) -/

/-- KDPCalculator.calculate_spine_width (kdp_calculator.py lines 134-179):
range-check the page count, look up the paper type coefficient, return the
product rounded to three decimals. -/
def KDPCalculator.calculate_spine_width (page_count : ℤ) (paper_type : String) :
    Except PyError ℚ :=
  if ¬ (MIN_PAGE_COUNT ≤ page_count ∧ page_count ≤ MAX_PAGE_COUNT) then
    Except.error
      ⟨"ValueError",
       "Page count must be between 24 and 828. Got: " ++ toString page_count⟩
  else
    match SPINE_WIDTH_FORMULAS.lookup paper_type with
    | none =>
        Except.error
          ⟨"ValueError",
           "Invalid paper type: " ++ paper_type ++
             ". Must be one of: [white, cream, color, standard_color]"⟩
    | some thickness_per_page =>
        Except.ok (pyRound3 (page_count * thickness_per_page))

/-- Inner scan of KDPCalculator.calculate_gutter_margin (lines 208-210):
first range containing the page count wins. -/
def gutterScan (page_count : ℤ) : List (ℤ × ℤ × ℚ) → Option ℚ
  | [] => none
  | (min_pages, max_pages, gutter) :: rest =>
      if min_pages ≤ page_count ∧ page_count ≤ max_pages then some gutter
      else gutterScan page_count rest

/-- KDPCalculator.calculate_gutter_margin (kdp_calculator.py lines 181-213):
range-check, scan the breakpoint table, fall back to 0.875 if no range
matched. -/
def KDPCalculator.calculate_gutter_margin (page_count : ℤ) :
    Except PyError ℚ :=
  if ¬ (MIN_PAGE_COUNT ≤ page_count ∧ page_count ≤ MAX_PAGE_COUNT) then
    Except.error
      ⟨"ValueError",
       "Page count must be between 24 and 828. Got: " ++ toString page_count⟩
  else
    Except.ok ((gutterScan page_count GUTTER_MARGINS).getD 0.875)

/-- The CoverDimensions dataclass (kdp_calculator.py lines 84-102). -/
structure CoverDimensions where
  width_inches : ℚ
  height_inches : ℚ
  width_pixels : ℤ
  height_pixels : ℤ
  spine_width_inches : ℚ
  spine_width_pixels : ℤ
  bleed_inches : ℚ
  dpi : ℤ
deriving Repr, DecidableEq

/-- KDPCalculator.calculate_cover_dimensions (kdp_calculator.py lines
215-276).  The hardback branch adds a case wrap of 1.5 inch per side. -/
def KDPCalculator.calculate_cover_dimensions (trim_width trim_height : ℚ)
    (page_count : ℤ) (paper_type : String) (cover_type : String) (dpi : ℤ) :
    Except PyError CoverDimensions :=
  match KDPCalculator.calculate_spine_width page_count paper_type with
  | Except.error e => Except.error e
  | Except.ok spine_width =>
      let cover_width :=
        if cover_type = "hardback" then
          2 * (trim_width + 1.5) + spine_width + 2 * BLEED_SIZE
        else
          2 * trim_width + spine_width + 2 * BLEED_SIZE
      let cover_height := trim_height + 2 * BLEED_SIZE
      Except.ok
        { width_inches := pyRound3 cover_width
          height_inches := pyRound3 cover_height
          width_pixels := pyInt (cover_width * dpi)
          height_pixels := pyInt (cover_height * dpi)
          spine_width_inches := pyRound3 spine_width
          spine_width_pixels := pyInt (spine_width * dpi)
          bleed_inches := BLEED_SIZE
          dpi := dpi }

/-! ## CoverGenerator (covers/cover_generator.py) -/

/-- CoverGenerator.PAPERBACK_SPINE_WIDTH (cover_generator.py line 45). -/
def CoverGenerator.PAPERBACK_SPINE_WIDTH : ℤ := 66

/-- CoverGenerator.ALT_HARDBACK_SPINE_WIDTH (cover_generator.py line 65). -/
def CoverGenerator.ALT_HARDBACK_SPINE_WIDTH : ℤ := 450

/-- CoverGenerator.ALT_HARDBACK_FLAP_WIDTH (cover_generator.py line 66). -/
def CoverGenerator.ALT_HARDBACK_FLAP_WIDTH : ℤ := 900

/-- CoverGenerator.SPINE_TEXT_CLEARANCE (cover_generator.py line 31). -/
def CoverGenerator.SPINE_TEXT_CLEARANCE : ℚ := 0.0625

/-- CoverGenerator.MIN_SPINE_TEXT_PAGES (cover_generator.py line 30). -/
def CoverGenerator.MIN_SPINE_TEXT_PAGES : ℤ := 79

/-- CoverGenerator.calculate_spine_width (cover_generator.py lines 89-111):
delegates to the KDP calculator, then adds 0.25 inch for hardcover boards. -/
def CoverGenerator.calculate_spine_width (page_count : ℤ) (paper_type : String)
    (binding_type : String) : Except PyError ℚ :=
  match KDPCalculator.calculate_spine_width page_count paper_type with
  | Except.error e => Except.error e
  | Except.ok spine_width =>
      Except.ok
        (if binding_type = "hardcover" then spine_width + 0.25 else spine_width)

/-- The dictionary returned by CoverGenerator.calculate_cover_dimensions
(cover_generator.py lines 154-167). -/
structure CoverDimsDict where
  cover_width : ℤ
  cover_height : ℤ
  spine_width : ℤ
  trim_width : ℚ
  trim_height : ℚ
  spine_width_inches : ℚ
  cover_width_inches : ℚ
  cover_height_inches : ℚ
  dpi : ℤ
  page_count : ℤ
  paper_type : String
  binding_type : String
deriving Repr, DecidableEq

/-- Python str.split with no argument: split on whitespace runs, dropping
empty pieces (used by wrap_text, cover_generator.py line 300). -/
def pyWords (text : String) : List String :=
  (text.split Char.isWhitespace).filter (fun w => w ≠ "")

/-- One iteration of the word loop of CoverGenerator.wrap_text
(cover_generator.py lines 304-319).  The state is the pair of the emitted
lines and the current line, the current line kept as its list of words
exactly as in the source. -/
def CoverGenerator.wrap_text_step (measure : String → ℤ) (max_width : ℤ)
    (st : List String × List String) (word : String) :
    List String × List String :=
  let test_line := String.intercalate (" ") (st.2 ++ [word])
  if measure test_line ≤ max_width then
    (st.1, st.2 ++ [word])
  else if st.2 ≠ [] then
    (st.1 ++ [String.intercalate (" ") st.2], [word])
  else
    (st.1 ++ [word], [])

/-- CoverGenerator.wrap_text (cover_generator.py lines 286-325): greedy
word wrap against an injected width measure, flushing the last line at the
end.  The draw.textbbox width measurement is the injected measure. -/
def CoverGenerator.wrap_text (text : String) (measure : String → ℤ)
    (max_width : ℤ) : List String :=
  let st := (pyWords text).foldl (CoverGenerator.wrap_text_step measure max_width)
    ([], [])
  if st.2 ≠ [] then st.1 ++ [String.intercalate (" ") st.2] else st.1

/-- Analysis companion of wrap_text_step that keeps each emitted line as
its list of words instead of joining it. -/
def wrapGroupsStep (measure : String → ℤ) (max_width : ℤ)
    (st : List (List String) × List String) (word : String) :
    List (List String) × List String :=
  let test_line := String.intercalate (" ") (st.2 ++ [word])
  if measure test_line ≤ max_width then
    (st.1, st.2 ++ [word])
  else if st.2 ≠ [] then
    (st.1 ++ [st.2], [word])
  else
    (st.1 ++ [[word]], [])

/-- Analysis companion of wrap_text returning the word groups of the
emitted lines. -/
def wrapGroups (words : List String) (measure : String → ℤ) (max_width : ℤ) :
    List (List String) :=
  let st := words.foldl (wrapGroupsStep measure max_width) ([], [])
  if st.2 ≠ [] then st.1 ++ [st.2] else st.1

/-- CoverGenerator.calculate_luminance (cover_generator.py lines 327-367)
on the pixel list of the sampled region: averages the ITU-R BT.709
luminance of the pixels.  Dividing by the length of an empty pixel list is
the one operation of the function that raises. -/
def CoverGenerator.calculate_luminance (pixels : List (ℤ × ℤ × ℤ)) :
    Except PyError ℚ :=
  if pixels.length = 0 then
    Except.error ⟨"ZeroDivisionError", "division by zero"⟩
  else
    Except.ok
      (((pixels.map
          (fun px => 0.2126 * (px.1 : ℚ) + 0.7152 * (px.2.1 : ℚ) +
            0.0722 * (px.2.2 : ℚ))).sum) / pixels.length)

/-- CoverGenerator.get_optimal_text_color (cover_generator.py lines
369-388): black text over a bright background, white text otherwise. -/
def CoverGenerator.get_optimal_text_color (pixels : List (ℤ × ℤ × ℤ)) :
    Except PyError (ℤ × ℤ × ℤ) :=
  match CoverGenerator.calculate_luminance pixels with
  | Except.error e => Except.error e
  | Except.ok luminance =>
      Except.ok (if 127.5 < luminance then (0, 0, 0) else (255, 255, 255))

/-- The spine text section of CoverGenerator._add_text_overlays
(cover_generator.py lines 1253-1289).  The method signature (lines
1154-1157) has no parameter named page_count or dpi and the body defines
no such local or global, so as soon as the gated branch is entered the
condition on line 1254 evaluates the undefined name page_count and raises
NameError (line 1267 would likewise evaluate the undefined name dpi); the
branch is entered exactly when the author string is truthy and the cover
type is paperback or hardback, and otherwise the section completes
without drawing spine text. -/
def CoverGenerator.add_text_overlays_spine (cover_type author : String) :
    Except PyError Unit :=
  if author ≠ "" ∧ cover_type ∈ [("paperback"), ("hardback")] then
    Except.error ⟨"NameError", "name page_count is not defined"⟩
  else
    Except.ok ()

/-- A PIL image, abstracted to its size and the list of rectangles drawn
onto it: each draw.rectangle call appends its coordinate quadruple. -/
structure PILImage where
  width : ℤ
  height : ℤ
  rects : List (ℤ × ℤ × ℤ × ℤ)
deriving Repr, DecidableEq

/-- CoverGenerator._add_barcode_safe_area (cover_generator.py lines
1335-1399): for a cover type with no physical back cover the image is
returned unchanged; otherwise the 2.0 by 1.2 inch white box is drawn at
the lower right of the back-cover region, inset by the binding-specific
clearances, first filled and then outlined (two draw.rectangle calls on
the same coordinates). -/
def CoverGenerator.add_barcode_safe_area (img : PILImage) (cover_type : String)
    (dpi : ℤ) : PILImage :=
  if cover_type ∉ [("paperback"), ("hardback")] then img
  else
    let barcode_width := pyInt (2.0 * (dpi : ℚ))
    let barcode_height := pyInt (1.2 * (dpi : ℚ))
    let clearance_bottom :=
      if cover_type = "hardback" then pyInt (0.76 * (dpi : ℚ))
      else pyInt (0.25 * (dpi : ℚ))
    let clearance_side :=
      if cover_type = "hardback" then pyInt (0.25 * (dpi : ℚ))
      else pyInt (0.25 * (dpi : ℚ))
    let back_end_x :=
      if cover_type = "paperback" then
        (img.width - CoverGenerator.PAPERBACK_SPINE_WIDTH) / 2
      else
        CoverGenerator.ALT_HARDBACK_FLAP_WIDTH +
          (img.width - 2 * CoverGenerator.ALT_HARDBACK_FLAP_WIDTH -
            CoverGenerator.ALT_HARDBACK_SPINE_WIDTH) / 2
    let barcode_x1 := back_end_x - barcode_width - clearance_side
    let barcode_y1 := img.height - barcode_height - clearance_bottom
    let barcode_x2 := back_end_x - clearance_side
    let barcode_y2 := img.height - clearance_bottom
    { img with
        rects := img.rects ++
          [(barcode_x1, barcode_y1, barcode_x2, barcode_y2),
           (barcode_x1, barcode_y1, barcode_x2, barcode_y2)] }

/-- CoverGenerator.calculate_cover_dimensions (cover_generator.py lines
113-167).  For hardcover it adds 0.25 inch to each trim dimension; the
spine already carries the 0.25 inch board allowance. -/
def CoverGenerator.calculate_cover_dimensions (trim_width trim_height : ℚ)
    (page_count : ℤ) (paper_type : String) (binding_type : String) (dpi : ℤ) :
    Except PyError CoverDimsDict :=
  match CoverGenerator.calculate_spine_width page_count paper_type binding_type with
  | Except.error e => Except.error e
  | Except.ok spine_width_inches =>
      let bleed : ℚ := 0.125
      let trim_width :=
        if binding_type = "hardcover" then trim_width + 0.25 else trim_width
      let trim_height :=
        if binding_type = "hardcover" then trim_height + 0.25 else trim_height
      let cover_width_inches := bleed * 2 + trim_width * 2 + spine_width_inches
      let cover_height_inches := bleed * 2 + trim_height
      Except.ok
        { cover_width := pyInt (cover_width_inches * dpi)
          cover_height := pyInt (cover_height_inches * dpi)
          spine_width := pyInt (spine_width_inches * dpi)
          trim_width := trim_width
          trim_height := trim_height
          spine_width_inches := spine_width_inches
          cover_width_inches := cover_width_inches
          cover_height_inches := cover_height_inches
          dpi := dpi
          page_count := page_count
          paper_type := paper_type
          binding_type := binding_type }

/-! ## Helper lemmas -/

lemma pyRoundHalfEven_ge_floor (x : ℚ) : ⌊x⌋ ≤ pyRoundHalfEven x := by
  unfold pyRoundHalfEven
  split_ifs <;> omega

lemma pyRoundHalfEven_le_floor_add_one (x : ℚ) :
    pyRoundHalfEven x ≤ ⌊x⌋ + 1 := by
  unfold pyRoundHalfEven
  split_ifs <;> omega

lemma pyRoundHalfEven_mono {x y : ℚ} (h : x ≤ y) :
    pyRoundHalfEven x ≤ pyRoundHalfEven y := by
  rcases lt_or_le ⌊x⌋ ⌊y⌋ with hf | hf
  · have hx := pyRoundHalfEven_le_floor_add_one x
    have hy := pyRoundHalfEven_ge_floor y
    omega
  · have hfe : ⌊x⌋ = ⌊y⌋ := le_antisymm (Int.floor_mono h) hf
    have hxy : x - (⌊y⌋ : ℚ) ≤ y - (⌊y⌋ : ℚ) := by linarith
    unfold pyRoundHalfEven
    rw [hfe]
    split_ifs <;> first | omega | linarith

lemma pyRound3_mono {x y : ℚ} (h : x ≤ y) : pyRound3 x ≤ pyRound3 y := by
  unfold pyRound3
  have h1 : pyRoundHalfEven (x * 1000) ≤ pyRoundHalfEven (y * 1000) :=
    pyRoundHalfEven_mono (by linarith)
  have h2 : (pyRoundHalfEven (x * 1000) : ℚ) ≤ (pyRoundHalfEven (y * 1000) : ℚ) :=
    Int.cast_le.mpr h1
  linarith

/-- In-range spine width with a known paper type coefficient. -/
lemma calculate_spine_width_ok {p : ℤ} (h1 : 24 ≤ p) (h2 : p ≤ 828)
    {paper : String} {c : ℚ}
    (hc : SPINE_WIDTH_FORMULAS.lookup paper = some c) :
    KDPCalculator.calculate_spine_width p paper = Except.ok (pyRound3 (p * c)) := by
  rw [KDPCalculator.calculate_spine_width]
  rw [if_neg (by simp only [MIN_PAGE_COUNT, MAX_PAGE_COUNT]; omega), hc]

/-- Unfolded form of the paperback KDP cover dimension computation. -/
lemma calculate_cover_dimensions_paperback {p : ℤ} (h1 : 24 ≤ p) (h2 : p ≤ 828)
    {paper : String} {c : ℚ}
    (hc : SPINE_WIDTH_FORMULAS.lookup paper = some c) (tw th : ℚ) (dpi : ℤ) :
    KDPCalculator.calculate_cover_dimensions tw th p paper ("paperback") dpi =
      Except.ok
        { width_inches := pyRound3 (2 * tw + pyRound3 (p * c) + 2 * BLEED_SIZE)
          height_inches := pyRound3 (th + 2 * BLEED_SIZE)
          width_pixels := pyInt ((2 * tw + pyRound3 (p * c) + 2 * BLEED_SIZE) * dpi)
          height_pixels := pyInt ((th + 2 * BLEED_SIZE) * dpi)
          spine_width_inches := pyRound3 (pyRound3 (p * c))
          spine_width_pixels := pyInt (pyRound3 (p * c) * dpi)
          bleed_inches := BLEED_SIZE
          dpi := dpi } := by
  rw [KDPCalculator.calculate_cover_dimensions, calculate_spine_width_ok h1 h2 hc]
  rfl

/-- Unfolded form of the hardback KDP cover dimension computation. -/
lemma calculate_cover_dimensions_hardback {p : ℤ} (h1 : 24 ≤ p) (h2 : p ≤ 828)
    {paper : String} {c : ℚ}
    (hc : SPINE_WIDTH_FORMULAS.lookup paper = some c) (tw th : ℚ) (dpi : ℤ) :
    KDPCalculator.calculate_cover_dimensions tw th p paper ("hardback") dpi =
      Except.ok
        { width_inches := pyRound3 (2 * (tw + 1.5) + pyRound3 (p * c) + 2 * BLEED_SIZE)
          height_inches := pyRound3 (th + 2 * BLEED_SIZE)
          width_pixels := pyInt ((2 * (tw + 1.5) + pyRound3 (p * c) + 2 * BLEED_SIZE) * dpi)
          height_pixels := pyInt ((th + 2 * BLEED_SIZE) * dpi)
          spine_width_inches := pyRound3 (pyRound3 (p * c))
          spine_width_pixels := pyInt (pyRound3 (p * c) * dpi)
          bleed_inches := BLEED_SIZE
          dpi := dpi } := by
  rw [KDPCalculator.calculate_cover_dimensions, calculate_spine_width_ok h1 h2 hc]
  rfl

/-- Unfolded form of the paperback CoverGenerator cover dimension
computation. -/
lemma CG_calculate_cover_dimensions_paperback {p : ℤ} (h1 : 24 ≤ p)
    (h2 : p ≤ 828) {paper : String} {c : ℚ}
    (hc : SPINE_WIDTH_FORMULAS.lookup paper = some c) (tw th : ℚ) (dpi : ℤ) :
    CoverGenerator.calculate_cover_dimensions tw th p paper ("paperback") dpi =
      Except.ok
        { cover_width := pyInt ((0.125 * 2 + tw * 2 + pyRound3 (p * c)) * dpi)
          cover_height := pyInt ((0.125 * 2 + th) * dpi)
          spine_width := pyInt (pyRound3 (p * c) * dpi)
          trim_width := tw
          trim_height := th
          spine_width_inches := pyRound3 (p * c)
          cover_width_inches := 0.125 * 2 + tw * 2 + pyRound3 (p * c)
          cover_height_inches := 0.125 * 2 + th
          dpi := dpi
          page_count := p
          paper_type := paper
          binding_type := "paperback" } := by
  rw [CoverGenerator.calculate_cover_dimensions, CoverGenerator.calculate_spine_width,
    calculate_spine_width_ok h1 h2 hc]
  rfl

/-- Unfolded form of the hardcover CoverGenerator cover dimension
computation. -/
lemma CG_calculate_cover_dimensions_hardcover {p : ℤ} (h1 : 24 ≤ p)
    (h2 : p ≤ 828) {paper : String} {c : ℚ}
    (hc : SPINE_WIDTH_FORMULAS.lookup paper = some c) (tw th : ℚ) (dpi : ℤ) :
    CoverGenerator.calculate_cover_dimensions tw th p paper ("hardcover") dpi =
      Except.ok
        { cover_width := pyInt ((0.125 * 2 + (tw + 0.25) * 2 + (pyRound3 (p * c) + 0.25)) * dpi)
          cover_height := pyInt ((0.125 * 2 + (th + 0.25)) * dpi)
          spine_width := pyInt ((pyRound3 (p * c) + 0.25) * dpi)
          trim_width := tw + 0.25
          trim_height := th + 0.25
          spine_width_inches := pyRound3 (p * c) + 0.25
          cover_width_inches := 0.125 * 2 + (tw + 0.25) * 2 + (pyRound3 (p * c) + 0.25)
          cover_height_inches := 0.125 * 2 + (th + 0.25)
          dpi := dpi
          page_count := p
          paper_type := paper
          binding_type := "hardcover" } := by
  rw [CoverGenerator.calculate_cover_dimensions, CoverGenerator.calculate_spine_width,
    calculate_spine_width_ok h1 h2 hc]
  rfl

/-- In range, calculate_gutter_margin returns the scan result with the
0.875 fallback default. -/
lemma gutter_margin_in_range {p : ℤ} (h1 : 24 ≤ p) (h2 : p ≤ 828) :
    KDPCalculator.calculate_gutter_margin p =
      Except.ok ((gutterScan p GUTTER_MARGINS).getD 0.875) := by
  rw [KDPCalculator.calculate_gutter_margin]
  rw [if_neg (by simp only [MIN_PAGE_COUNT, MAX_PAGE_COUNT]; omega)]

/-- Joining a one-word line is that word. -/
lemma intercalate_singleton (w : String) : String.intercalate (" ") [w] = w := rfl

/-- The string-level wrap step is the image of the group-level wrap step
under line joining. -/
lemma wrap_text_step_map (measure : String → ℤ) (max_width : ℤ)
    (G : List (List String)) (cur : List String) (w : String) :
    CoverGenerator.wrap_text_step measure max_width
      (G.map (fun g => String.intercalate (" ") g), cur) w
    = ((wrapGroupsStep measure max_width (G, cur) w).1.map
         (fun g => String.intercalate (" ") g),
       (wrapGroupsStep measure max_width (G, cur) w).2) := by
  simp only [CoverGenerator.wrap_text_step, wrapGroupsStep]
  by_cases h1 : measure (String.intercalate (" ") (cur ++ [w])) ≤ max_width
  · simp [h1]
  · by_cases h2 : cur = []
    · subst h2
      rw [List.nil_append, intercalate_singleton] at h1
      simp [h1, intercalate_singleton]
    · simp [h1, h2]

/-- Folding the string-level wrap step is the joined image of folding the
group-level wrap step. -/
lemma wrap_foldl_eq (measure : String → ℤ) (max_width : ℤ) :
    ∀ (ws : List String) (G : List (List String)) (cur : List String),
      ws.foldl (CoverGenerator.wrap_text_step measure max_width)
        (G.map (fun g => String.intercalate (" ") g), cur)
      = ((ws.foldl (wrapGroupsStep measure max_width) (G, cur)).1.map
           (fun g => String.intercalate (" ") g),
         (ws.foldl (wrapGroupsStep measure max_width) (G, cur)).2) := by
  intro ws
  induction ws with
  | nil => intro G cur; rfl
  | cons w ws ih =>
    intro G cur
    simp only [List.foldl_cons, wrap_text_step_map]
    exact ih _ _

/-- The group-level wrap fold conserves the word sequence. -/
lemma wrapGroups_foldl_flatten (measure : String → ℤ) (max_width : ℤ) :
    ∀ (ws : List String) (G : List (List String)) (cur : List String),
      (ws.foldl (wrapGroupsStep measure max_width) (G, cur)).1.flatten
        ++ (ws.foldl (wrapGroupsStep measure max_width) (G, cur)).2
      = G.flatten ++ cur ++ ws := by
  intro ws
  induction ws with
  | nil => intro G cur; simp
  | cons w ws ih =>
    intro G cur
    simp only [List.foldl_cons]
    simp only [wrapGroupsStep]
    by_cases h1 : measure (String.intercalate (" ") (cur ++ [w])) ≤ max_width
    · simp only [if_pos h1]
      rw [ih]
      simp
    · by_cases h2 : cur = []
      · subst h2
        simp only [if_neg h1]
        simp only [ne_eq, not_true_eq_false, if_false]
        rw [ih]
        simp
      · simp only [if_neg h1, ne_eq, h2, not_false_eq_true, if_true]
        rw [ih]
        simp

/-- Invariant of the string-level wrap fold: every emitted line fits or is
a single input word, and the pending line fits or is a single input word. -/
lemma wrap_foldl_inv (measure : String → ℤ) (max_width : ℤ) (W : List String) :
    ∀ (ws lines cur : List String),
      (∀ w ∈ ws, w ∈ W) →
      (∀ l ∈ lines, measure l ≤ max_width ∨ l ∈ W) →
      (cur = [] ∨ measure (String.intercalate (" ") cur) ≤ max_width ∨
        ∃ w ∈ W, cur = [w]) →
      (∀ l ∈ (ws.foldl (CoverGenerator.wrap_text_step measure max_width)
          (lines, cur)).1, measure l ≤ max_width ∨ l ∈ W)
      ∧ ((ws.foldl (CoverGenerator.wrap_text_step measure max_width)
            (lines, cur)).2 = []
        ∨ measure (String.intercalate (" ")
            ((ws.foldl (CoverGenerator.wrap_text_step measure max_width)
              (lines, cur)).2)) ≤ max_width
        ∨ ∃ w ∈ W, (ws.foldl (CoverGenerator.wrap_text_step measure max_width)
            (lines, cur)).2 = [w]) := by
  intro ws
  induction ws with
  | nil => intro lines cur hws hl hc; exact ⟨hl, hc⟩
  | cons w ws ih =>
    intro lines cur hws hl hc
    have hwW : w ∈ W := hws w (by simp)
    have hws2 : ∀ x ∈ ws, x ∈ W := fun x hx => hws x (by simp [hx])
    simp only [List.foldl_cons, CoverGenerator.wrap_text_step]
    by_cases h1 : measure (String.intercalate (" ") (cur ++ [w])) ≤ max_width
    · simp only [if_pos h1]
      exact ih lines (cur ++ [w]) hws2 hl (Or.inr (Or.inl h1))
    · by_cases h2 : cur = []
      · subst h2
        simp only [if_neg h1, ne_eq, not_true_eq_false, if_false]
        refine ih (lines ++ [w]) [] hws2 ?_ (Or.inl rfl)
        intro l hl'
        rcases List.mem_append.mp hl' with h | h
        · exact hl l h
        · right
          simpa using (by simpa using h) ▸ hwW
      · simp only [if_neg h1, ne_eq, h2, not_false_eq_true, if_true]
        refine ih (lines ++ [String.intercalate (" ") cur]) [w] hws2 ?_
          (Or.inr (Or.inr ⟨w, hwW, rfl⟩))
        intro l hl'
        rcases List.mem_append.mp hl' with h | h
        · exact hl l h
        · have hle : l = String.intercalate (" ") cur := by simpa using h
          subst hle
          rcases hc with rfl | hcm | ⟨u, huW, rfl⟩
          · exact absurd rfl h2
          · exact Or.inl hcm
          · right
            simpa [intercalate_singleton] using huW

/-- Claim C7: for every input text, width bound and total width measure,
wrap_text only returns lines that fit within the bound except for lines
that are a single input word, the returned lines are the space-joins of
the word groups computed by wrapGroups, and those groups concatenate back
to exactly the whitespace-separated word sequence of the input (no word
split, dropped, duplicated or reordered). -/
theorem wrap_text_sound_and_conserving (text : String) (measure : String → ℤ)
    (max_width : ℤ) :
    (CoverGenerator.wrap_text text measure max_width).Forall
      (fun l => measure l ≤ max_width ∨ l ∈ pyWords text)
    ∧ CoverGenerator.wrap_text text measure max_width
        = (wrapGroups (pyWords text) measure max_width).map
            (fun g => String.intercalate (" ") g)
    ∧ (wrapGroups (pyWords text) measure max_width).flatten = pyWords text := by
  have hinv := wrap_foldl_inv measure max_width (pyWords text) (pyWords text) [] []
    (fun w hw => hw) (by simp) (Or.inl rfl)
  have hcons := wrapGroups_foldl_flatten measure max_width (pyWords text) [] []
  have heq := wrap_foldl_eq measure max_width (pyWords text) [] []
  simp only [List.map_nil] at heq
  refine ⟨?_, ?_, ?_⟩
  · rw [List.forall_iff_forall_mem]
    intro l hl
    simp only [CoverGenerator.wrap_text] at hl
    by_cases h2 : ((pyWords text).foldl
        (CoverGenerator.wrap_text_step measure max_width) ([], [])).2 = []
    · rw [if_neg (by simpa using h2)] at hl
      exact hinv.1 l hl
    · rw [if_pos (by simpa using h2)] at hl
      rcases List.mem_append.mp hl with h | h
      · exact hinv.1 l h
      · have hle : l = String.intercalate (" ")
            (((pyWords text).foldl
              (CoverGenerator.wrap_text_step measure max_width) ([], [])).2) := by
          simpa using h
        subst hle
        rcases hinv.2 with hnil | hfits | ⟨u, huW, hu⟩
        · exact absurd hnil h2
        · exact Or.inl hfits
        · rw [hu, intercalate_singleton]
          exact Or.inr huW
  · simp only [CoverGenerator.wrap_text, wrapGroups, heq]
    by_cases h2 : ((pyWords text).foldl
        (wrapGroupsStep measure max_width) ([], [])).2 = []
    · rw [if_neg (by simpa using h2), if_neg (by simpa using h2)]
    · rw [if_pos (by simpa using h2), if_pos (by simpa using h2)]
      simp
  · simp only [wrapGroups]
    by_cases h2 : ((pyWords text).foldl
        (wrapGroupsStep measure max_width) ([], [])).2 = []
    · rw [if_neg (by simpa using h2)]
      rw [h2] at hcons
      simpa using hcons
    · rw [if_pos (by simpa using h2)]
      rw [List.flatten_append]
      simpa using hcons

/-- Coefficient lookup for the white paper type. -/
lemma lookup_white : SPINE_WIDTH_FORMULAS.lookup ("white") = some (0.002252 : ℚ) := by
  simp [SPINE_WIDTH_FORMULAS, List.lookup]

/-- Coefficient lookup for the cream paper type. -/
lemma lookup_cream : SPINE_WIDTH_FORMULAS.lookup ("cream") = some (0.0025 : ℚ) := by
  simp [SPINE_WIDTH_FORMULAS, List.lookup]

/-- Coefficient lookup for the premium color paper type. -/
lemma lookup_color : SPINE_WIDTH_FORMULAS.lookup ("color") = some (0.002347 : ℚ) := by
  simp [SPINE_WIDTH_FORMULAS, List.lookup]

/-- Coefficient lookup for the standard color paper type. -/
lemma lookup_standard_color :
    SPINE_WIDTH_FORMULAS.lookup ("standard_color") = some (0.002252 : ℚ) := by
  simp [SPINE_WIDTH_FORMULAS, List.lookup]

/-- Every known paper type has a nonnegative coefficient in the table. -/
lemma lookup_coeff_of_known {paper : String}
    (hp : paper ∈ [("white"), ("cream"), ("color"), ("standard_color")]) :
    ∃ c : ℚ, SPINE_WIDTH_FORMULAS.lookup paper = some c ∧ 0 ≤ c := by
  simp only [List.mem_cons, List.not_mem_nil, or_false] at hp
  rcases hp with rfl | rfl | rfl | rfl
  · exact ⟨0.002252, lookup_white, by norm_num⟩
  · exact ⟨0.0025, lookup_cream, by norm_num⟩
  · exact ⟨0.002347, lookup_color, by norm_num⟩
  · exact ⟨0.002252, lookup_standard_color, by norm_num⟩

/-- Claim C1: over the whole legal page range and the four known paper
types, calculate_spine_width returns the page count times the per-paper
coefficient rounded to three decimals, the CoverGenerator wrapper adds a
further 0.25 inch exactly for the hardcover binding, and the two spec
examples evaluate to 0.563 and 0.75. -/
theorem spine_width_formula_and_examples (p : ℤ) (h1 : 24 ≤ p) (h2 : p ≤ 828) :
    KDPCalculator.calculate_spine_width p ("white")
        = Except.ok (pyRound3 (p * 0.002252))
    ∧ KDPCalculator.calculate_spine_width p ("cream")
        = Except.ok (pyRound3 (p * 0.0025))
    ∧ KDPCalculator.calculate_spine_width p ("color")
        = Except.ok (pyRound3 (p * 0.002347))
    ∧ KDPCalculator.calculate_spine_width p ("standard_color")
        = Except.ok (pyRound3 (p * 0.002252))
    ∧ (∀ paper w, KDPCalculator.calculate_spine_width p paper = Except.ok w →
        CoverGenerator.calculate_spine_width p paper ("hardcover")
            = Except.ok (w + 0.25)
        ∧ CoverGenerator.calculate_spine_width p paper ("paperback")
            = Except.ok w)
    ∧ KDPCalculator.calculate_spine_width 250 ("white") = Except.ok (0.563 : ℚ)
    ∧ KDPCalculator.calculate_spine_width 300 ("cream") = Except.ok (0.75 : ℚ) := by
  refine ⟨calculate_spine_width_ok h1 h2 lookup_white,
    calculate_spine_width_ok h1 h2 lookup_cream,
    calculate_spine_width_ok h1 h2 lookup_color,
    calculate_spine_width_ok h1 h2 lookup_standard_color, ?_, ?_, ?_⟩
  · intro paper w hw
    constructor <;> (rw [CoverGenerator.calculate_spine_width, hw]; rfl)
  · rw [calculate_spine_width_ok (by norm_num) (by norm_num) lookup_white]
    norm_num [pyRound3, pyRoundHalfEven]
  · rw [calculate_spine_width_ok (by norm_num) (by norm_num) lookup_cream]
    norm_num [pyRound3, pyRoundHalfEven]

/-- Witness for C1 at page count 250. -/
theorem spine_width_formula_and_examples_witness :
    KDPCalculator.calculate_spine_width 250 ("white") = Except.ok (0.563 : ℚ) :=
  (spine_width_formula_and_examples 250 (by norm_num) (by norm_num)).2.2.2.2.2.1

/-- Claim C8: for a fixed known paper type the rounded spine width is
monotonically non-decreasing in the page count over the legal range. -/
theorem spine_width_monotone_in_pages (paper : String)
    (hp : paper ∈ [("white"), ("cream"), ("color"), ("standard_color")])
    (p1 p2 : ℤ) (ha : 24 ≤ p1) (hb : p1 ≤ p2) (hc : p2 ≤ 828) :
    ∃ w1 w2,
      KDPCalculator.calculate_spine_width p1 paper = Except.ok w1
      ∧ KDPCalculator.calculate_spine_width p2 paper = Except.ok w2
      ∧ w1 ≤ w2 := by
  obtain ⟨c, hcl, hc0⟩ := lookup_coeff_of_known hp
  refine ⟨_, _, calculate_spine_width_ok ha (by omega) hcl,
    calculate_spine_width_ok (by omega) hc hcl, ?_⟩
  apply pyRound3_mono
  have hpq : (p1 : ℚ) ≤ (p2 : ℚ) := by exact_mod_cast hb
  exact mul_le_mul_of_nonneg_right hpq hc0

/-- Witness for C8: white paper, 100 and 200 pages. -/
theorem spine_width_monotone_in_pages_witness :
    ∃ w1 w2,
      KDPCalculator.calculate_spine_width 100 ("white") = Except.ok w1
      ∧ KDPCalculator.calculate_spine_width 200 ("white") = Except.ok w2
      ∧ w1 ≤ w2 :=
  spine_width_monotone_in_pages ("white") (by simp) 100 200 (by norm_num)
    (by norm_num) (by norm_num)

/-- Claim C5 (amended): both calculators raise exactly for an out-of-range
page count (checked first) or an unknown paper type, and never for legal
inputs; the two failure cases carry distinct messages, but both are the
one Python ValueError class rather than two distinct typed errors. -/
theorem calculator_error_conditions (p : ℤ) (paper : String) (tw th : ℚ)
    (dpi : ℤ) :
    (¬ (24 ≤ p ∧ p ≤ 828) →
      ∃ e, KDPCalculator.calculate_spine_width p paper = Except.error e
        ∧ KDPCalculator.calculate_cover_dimensions tw th p paper ("paperback") dpi
            = Except.error e
        ∧ e.cls = "ValueError"
        ∧ e.msg = "Page count must be between 24 and 828. Got: " ++ toString p)
    ∧ ((24 ≤ p ∧ p ≤ 828) → SPINE_WIDTH_FORMULAS.lookup paper = none →
      ∃ e, KDPCalculator.calculate_spine_width p paper = Except.error e
        ∧ KDPCalculator.calculate_cover_dimensions tw th p paper ("paperback") dpi
            = Except.error e
        ∧ e.cls = "ValueError"
        ∧ e.msg = "Invalid paper type: " ++ paper
            ++ ". Must be one of: [white, cream, color, standard_color]")
    ∧ ((24 ≤ p ∧ p ≤ 828) → ∀ c, SPINE_WIDTH_FORMULAS.lookup paper = some c →
      (∃ w, KDPCalculator.calculate_spine_width p paper = Except.ok w)
      ∧ ∃ d, KDPCalculator.calculate_cover_dimensions tw th p paper ("paperback") dpi
          = Except.ok d)
    ∧ SPINE_WIDTH_FORMULAS.lookup ("metallic") = none
    ∧ ¬ (24 ≤ (10 : ℤ) ∧ (10 : ℤ) ≤ 828)
    ∧ ¬ (24 ≤ (900 : ℤ) ∧ (900 : ℤ) ≤ 828) := by
  refine ⟨?_, ?_, ?_, by simp [SPINE_WIDTH_FORMULAS, List.lookup], by norm_num,
    by norm_num⟩
  · intro h
    have hs : KDPCalculator.calculate_spine_width p paper = Except.error
        ⟨"ValueError", "Page count must be between 24 and 828. Got: " ++ toString p⟩ := by
      rw [KDPCalculator.calculate_spine_width,
        if_pos (by simp only [MIN_PAGE_COUNT, MAX_PAGE_COUNT]; exact h)]
    refine ⟨_, hs, ?_, rfl, rfl⟩
    rw [KDPCalculator.calculate_cover_dimensions, hs]
  · intro h hn
    have hs : KDPCalculator.calculate_spine_width p paper = Except.error
        ⟨"ValueError", "Invalid paper type: " ++ paper
          ++ ". Must be one of: [white, cream, color, standard_color]"⟩ := by
      rw [KDPCalculator.calculate_spine_width,
        if_neg (by simp only [MIN_PAGE_COUNT, MAX_PAGE_COUNT]; omega), hn]
    refine ⟨_, hs, ?_, rfl, rfl⟩
    rw [KDPCalculator.calculate_cover_dimensions, hs]
  · intro h c hcl
    exact ⟨⟨_, calculate_spine_width_ok h.1 h.2 hcl⟩,
      ⟨_, calculate_cover_dimensions_paperback h.1 h.2 hcl tw th dpi⟩⟩

/-- Witness for C5 at page count 10. -/
theorem calculator_error_conditions_witness :
    ∃ e, KDPCalculator.calculate_spine_width 10 ("white") = Except.error e
      ∧ KDPCalculator.calculate_cover_dimensions 6 9 10 ("white") ("paperback") 300
          = Except.error e
      ∧ e.cls = "ValueError"
      ∧ e.msg = "Page count must be between 24 and 828. Got: " ++ toString (10 : ℤ) :=
  (calculator_error_conditions 10 ("white") 6 9 300).1 (by norm_num)

/-- Counterexample for C5 as stated: the out-of-range failure and the
unknown-paper failure raise the same exception class ValueError, so there
is no distinct typed RangeError versus UnknownEnumError pair. -/
theorem error_classes_not_distinct_cex :
    ∃ e1 e2,
      KDPCalculator.calculate_spine_width 10 ("white") = Except.error e1
      ∧ KDPCalculator.calculate_spine_width 250 ("metallic") = Except.error e2
      ∧ e1.cls = "ValueError" ∧ e2.cls = "ValueError" ∧ e1.cls = e2.cls := by
  refine ⟨⟨"ValueError", "Page count must be between 24 and 828. Got: "
      ++ toString (10 : ℤ)⟩,
    ⟨"ValueError", "Invalid paper type: " ++ "metallic"
      ++ ". Must be one of: [white, cream, color, standard_color]"⟩,
    ?_, ?_, rfl, rfl, rfl⟩
  · rw [KDPCalculator.calculate_spine_width,
      if_pos (by simp only [MIN_PAGE_COUNT, MAX_PAGE_COUNT]; omega)]
  · rw [KDPCalculator.calculate_spine_width,
      if_neg (by simp only [MIN_PAGE_COUNT, MAX_PAGE_COUNT]; omega),
      show SPINE_WIDTH_FORMULAS.lookup ("metallic") = none from
        by simp [SPINE_WIDTH_FORMULAS, List.lookup]]

/-- Claim C6: the five gutter breakpoint ranges partition the legal page
range (exactly one matches each legal page count), calculate_gutter_margin
returns the margin of the matching range with the scan always succeeding
(so the post-loop fallback is unreachable in range), and the three spec
examples hold. -/
theorem gutter_margin_partition (p : ℤ) (h1 : 24 ≤ p) (h2 : p ≤ 828) :
    (∃! t : ℤ × ℤ × ℚ, t ∈ GUTTER_MARGINS ∧ t.1 ≤ p ∧ p ≤ t.2.1)
    ∧ (∀ t : ℤ × ℤ × ℚ, t ∈ GUTTER_MARGINS → t.1 ≤ p → p ≤ t.2.1 →
        KDPCalculator.calculate_gutter_margin p = Except.ok t.2.2)
    ∧ (∃ g, gutterScan p GUTTER_MARGINS = some g
        ∧ KDPCalculator.calculate_gutter_margin p = Except.ok g)
    ∧ KDPCalculator.calculate_gutter_margin 100 = Except.ok (0.375 : ℚ)
    ∧ KDPCalculator.calculate_gutter_margin 200 = Except.ok (0.5 : ℚ)
    ∧ KDPCalculator.calculate_gutter_margin 800 = Except.ok (0.875 : ℚ) := by
  have hm := gutter_margin_in_range h1 h2
  have hex1 : KDPCalculator.calculate_gutter_margin 100 = Except.ok (0.375 : ℚ) := by
    simp only [KDPCalculator.calculate_gutter_margin, MIN_PAGE_COUNT, MAX_PAGE_COUNT,
      GUTTER_MARGINS, gutterScan]
    norm_num
  have hex2 : KDPCalculator.calculate_gutter_margin 200 = Except.ok (0.5 : ℚ) := by
    simp only [KDPCalculator.calculate_gutter_margin, MIN_PAGE_COUNT, MAX_PAGE_COUNT,
      GUTTER_MARGINS, gutterScan]
    norm_num
  have hex3 : KDPCalculator.calculate_gutter_margin 800 = Except.ok (0.875 : ℚ) := by
    simp only [KDPCalculator.calculate_gutter_margin, MIN_PAGE_COUNT, MAX_PAGE_COUNT,
      GUTTER_MARGINS, gutterScan]
    norm_num
  have hrange : (24 ≤ p ∧ p ≤ 150) ∨ (151 ≤ p ∧ p ≤ 300) ∨ (301 ≤ p ∧ p ≤ 500)
      ∨ (501 ≤ p ∧ p ≤ 700) ∨ (701 ≤ p ∧ p ≤ 828) := by omega
  rcases hrange with ⟨a, b⟩ | ⟨a, b⟩ | ⟨a, b⟩ | ⟨a, b⟩ | ⟨a, b⟩
  · have hs : gutterScan p GUTTER_MARGINS = some (0.375 : ℚ) := by
      simp only [GUTTER_MARGINS, gutterScan]
      rw [if_pos ⟨a, b⟩]
    have hv : KDPCalculator.calculate_gutter_margin p = Except.ok (0.375 : ℚ) := by
      rw [hm, hs]
      rfl
    refine ⟨⟨(24, 150, 0.375), ⟨by simp [GUTTER_MARGINS], a, b⟩, ?_⟩, ?_,
      ⟨0.375, hs, hv⟩, hex1, hex2, hex3⟩
    · rintro t ⟨ht, hta, htb⟩
      simp only [GUTTER_MARGINS, List.mem_cons, List.not_mem_nil, or_false] at ht
      rcases ht with rfl | rfl | rfl | rfl | rfl <;>
        first | rfl | (exfalso; simp at hta htb; omega)
    · intro t ht hta htb
      simp only [GUTTER_MARGINS, List.mem_cons, List.not_mem_nil, or_false] at ht
      rcases ht with rfl | rfl | rfl | rfl | rfl <;>
        first | exact hv | (exfalso; simp at hta htb; omega)
  · have hs : gutterScan p GUTTER_MARGINS = some (0.5 : ℚ) := by
      simp only [GUTTER_MARGINS, gutterScan]
      rw [if_neg (by omega), if_pos ⟨a, b⟩]
    have hv : KDPCalculator.calculate_gutter_margin p = Except.ok (0.5 : ℚ) := by
      rw [hm, hs]
      rfl
    refine ⟨⟨(151, 300, 0.5), ⟨by simp [GUTTER_MARGINS], a, b⟩, ?_⟩, ?_,
      ⟨0.5, hs, hv⟩, hex1, hex2, hex3⟩
    · rintro t ⟨ht, hta, htb⟩
      simp only [GUTTER_MARGINS, List.mem_cons, List.not_mem_nil, or_false] at ht
      rcases ht with rfl | rfl | rfl | rfl | rfl <;>
        first | rfl | (exfalso; simp at hta htb; omega)
    · intro t ht hta htb
      simp only [GUTTER_MARGINS, List.mem_cons, List.not_mem_nil, or_false] at ht
      rcases ht with rfl | rfl | rfl | rfl | rfl <;>
        first | exact hv | (exfalso; simp at hta htb; omega)
  · have hs : gutterScan p GUTTER_MARGINS = some (0.625 : ℚ) := by
      simp only [GUTTER_MARGINS, gutterScan]
      rw [if_neg (by omega), if_neg (by omega), if_pos ⟨a, b⟩]
    have hv : KDPCalculator.calculate_gutter_margin p = Except.ok (0.625 : ℚ) := by
      rw [hm, hs]
      rfl
    refine ⟨⟨(301, 500, 0.625), ⟨by simp [GUTTER_MARGINS], a, b⟩, ?_⟩, ?_,
      ⟨0.625, hs, hv⟩, hex1, hex2, hex3⟩
    · rintro t ⟨ht, hta, htb⟩
      simp only [GUTTER_MARGINS, List.mem_cons, List.not_mem_nil, or_false] at ht
      rcases ht with rfl | rfl | rfl | rfl | rfl <;>
        first | rfl | (exfalso; simp at hta htb; omega)
    · intro t ht hta htb
      simp only [GUTTER_MARGINS, List.mem_cons, List.not_mem_nil, or_false] at ht
      rcases ht with rfl | rfl | rfl | rfl | rfl <;>
        first | exact hv | (exfalso; simp at hta htb; omega)
  · have hs : gutterScan p GUTTER_MARGINS = some (0.75 : ℚ) := by
      simp only [GUTTER_MARGINS, gutterScan]
      rw [if_neg (by omega), if_neg (by omega), if_neg (by omega), if_pos ⟨a, b⟩]
    have hv : KDPCalculator.calculate_gutter_margin p = Except.ok (0.75 : ℚ) := by
      rw [hm, hs]
      rfl
    refine ⟨⟨(501, 700, 0.75), ⟨by simp [GUTTER_MARGINS], a, b⟩, ?_⟩, ?_,
      ⟨0.75, hs, hv⟩, hex1, hex2, hex3⟩
    · rintro t ⟨ht, hta, htb⟩
      simp only [GUTTER_MARGINS, List.mem_cons, List.not_mem_nil, or_false] at ht
      rcases ht with rfl | rfl | rfl | rfl | rfl <;>
        first | rfl | (exfalso; simp at hta htb; omega)
    · intro t ht hta htb
      simp only [GUTTER_MARGINS, List.mem_cons, List.not_mem_nil, or_false] at ht
      rcases ht with rfl | rfl | rfl | rfl | rfl <;>
        first | exact hv | (exfalso; simp at hta htb; omega)
  · have hs : gutterScan p GUTTER_MARGINS = some (0.875 : ℚ) := by
      simp only [GUTTER_MARGINS, gutterScan]
      rw [if_neg (by omega), if_neg (by omega), if_neg (by omega),
        if_neg (by omega), if_pos ⟨a, b⟩]
    have hv : KDPCalculator.calculate_gutter_margin p = Except.ok (0.875 : ℚ) := by
      rw [hm, hs]
      rfl
    refine ⟨⟨(701, 828, 0.875), ⟨by simp [GUTTER_MARGINS], a, b⟩, ?_⟩, ?_,
      ⟨0.875, hs, hv⟩, hex1, hex2, hex3⟩
    · rintro t ⟨ht, hta, htb⟩
      simp only [GUTTER_MARGINS, List.mem_cons, List.not_mem_nil, or_false] at ht
      rcases ht with rfl | rfl | rfl | rfl | rfl <;>
        first | rfl | (exfalso; simp at hta htb; omega)
    · intro t ht hta htb
      simp only [GUTTER_MARGINS, List.mem_cons, List.not_mem_nil, or_false] at ht
      rcases ht with rfl | rfl | rfl | rfl | rfl <;>
        first | exact hv | (exfalso; simp at hta htb; omega)

/-- Witness for C6 at page count 200. -/
theorem gutter_margin_partition_witness :
    ∃ g, gutterScan 200 GUTTER_MARGINS = some g
      ∧ KDPCalculator.calculate_gutter_margin 200 = Except.ok g :=
  (gutter_margin_partition 200 (by norm_num) (by norm_num)).2.2.1

/-- Rounding an exact integer leaves it unchanged. -/
lemma pyRoundHalfEven_intCast (k : ℤ) : pyRoundHalfEven (k : ℚ) = k := by
  unfold pyRoundHalfEven
  rw [Int.floor_intCast]
  norm_num

/-- Rounding to three decimals is idempotent. -/
lemma pyRound3_idem (x : ℚ) : pyRound3 (pyRound3 x) = pyRound3 x := by
  unfold pyRound3
  have h1 : (pyRoundHalfEven (x * 1000) : ℚ) / 1000 * 1000
      = (pyRoundHalfEven (x * 1000) : ℚ) := by
    field_simp
  rw [h1, pyRoundHalfEven_intCast]

/-- Claim C2 (amended): for every legal paperback input the returned inch
fields are the three-decimal roundings of trimHeight plus twice the bleed
and of twice trimWidth plus the rounded spine plus twice the bleed, and
all three pixel fields are the integer truncation of the corresponding
unrounded inch value times the dpi; on the spec example the height is 9.25
inches and the width 12.813 inches, and the width pixel count 3843 is the
truncation, not the round-to-nearest 3844. -/
theorem cover_dimensions_formula (tw th : ℚ) (p : ℤ) (paper : String) (c : ℚ)
    (dpi : ℤ) (h1 : 24 ≤ p) (h2 : p ≤ 828)
    (hc : SPINE_WIDTH_FORMULAS.lookup paper = some c) :
    (∃ d, KDPCalculator.calculate_cover_dimensions tw th p paper ("paperback") dpi
        = Except.ok d
      ∧ d.height_inches = pyRound3 (th + 2 * 0.125)
      ∧ d.width_inches = pyRound3 (2 * tw + pyRound3 (p * c) + 2 * 0.125)
      ∧ d.width_pixels = pyInt ((2 * tw + pyRound3 (p * c) + 2 * 0.125) * dpi)
      ∧ d.height_pixels = pyInt ((th + 2 * 0.125) * dpi)
      ∧ d.spine_width_pixels = pyInt (pyRound3 (p * c) * dpi))
    ∧ (∃ d, KDPCalculator.calculate_cover_dimensions 6 9 250 ("white") ("paperback") 300
        = Except.ok d
      ∧ d.height_inches = 9.25
      ∧ d.width_inches = 12.813
      ∧ d.width_pixels = 3843
      ∧ d.height_pixels = 2775
      ∧ d.spine_width_pixels = 168
      ∧ pyInt ((12.813 : ℚ) * 300) = 3843
      ∧ pyRoundHalfEven ((12.813 : ℚ) * 300) = 3844) := by
  constructor
  · exact ⟨_, calculate_cover_dimensions_paperback h1 h2 hc tw th dpi,
      rfl, rfl, rfl, rfl, rfl⟩
  · refine ⟨_, calculate_cover_dimensions_paperback (by norm_num) (by norm_num)
      lookup_white 6 9 300, ?_, ?_, ?_, ?_, ?_, ?_, ?_⟩ <;>
      norm_num [pyRound3, pyRoundHalfEven, pyInt, BLEED_SIZE]

/-- Witness for C2 on the spec example. -/
theorem cover_dimensions_formula_witness :
    ∃ d, KDPCalculator.calculate_cover_dimensions 6 9 250 ("white") ("paperback") 300
        = Except.ok d
      ∧ d.height_inches = 9.25
      ∧ d.width_inches = 12.813
      ∧ d.width_pixels = 3843
      ∧ d.height_pixels = 2775
      ∧ d.spine_width_pixels = 168
      ∧ pyInt ((12.813 : ℚ) * 300) = 3843
      ∧ pyRoundHalfEven ((12.813 : ℚ) * 300) = 3844 :=
  (cover_dimensions_formula 6 9 250 ("white") 0.002252 300 (by norm_num)
    (by norm_num) lookup_white).2

/-- Counterexample for C2 as stated: for the valid paperback input with
trim height 9.0004 the returned height_inches field is the rounded 9.25,
not trimHeight plus twice the bleed, because the code rounds the returned
inch fields to three decimals. -/
theorem cover_height_not_exact_cex :
    ∃ d, KDPCalculator.calculate_cover_dimensions 6 9.0004 250 ("white")
        ("paperback") 300 = Except.ok d
      ∧ d.height_inches = 9.25
      ∧ d.height_inches ≠ (9.0004 : ℚ) + 2 * 0.125 := by
  refine ⟨_, calculate_cover_dimensions_paperback (by norm_num) (by norm_num)
    lookup_white 6 9.0004 300, ?_, ?_⟩ <;>
    norm_num [pyRound3, pyRoundHalfEven, BLEED_SIZE]

/-- Claim C3 (amended): calculate_spine_width itself returns the rounded
value, so the pixel math of calculate_cover_dimensions consumes the
three-decimal rounded spine, not the unrounded product: the spine pixel
field is the truncation of the rounded spine times dpi, and the returned
spine inch field equals that same rounded value. -/
theorem spine_pixels_use_rounded_spine (tw th : ℚ) (p : ℤ) (paper : String)
    (c : ℚ) (dpi : ℤ) (h1 : 24 ≤ p) (h2 : p ≤ 828)
    (hc : SPINE_WIDTH_FORMULAS.lookup paper = some c) :
    KDPCalculator.calculate_spine_width p paper = Except.ok (pyRound3 (p * c))
    ∧ ∃ d, KDPCalculator.calculate_cover_dimensions tw th p paper ("paperback") dpi
        = Except.ok d
      ∧ d.spine_width_pixels = pyInt (pyRound3 (p * c) * dpi)
      ∧ d.width_pixels = pyInt ((2 * tw + pyRound3 (p * c) + 2 * 0.125) * dpi)
      ∧ d.spine_width_inches = pyRound3 (p * c) := by
  refine ⟨calculate_spine_width_ok h1 h2 hc,
    _, calculate_cover_dimensions_paperback h1 h2 hc tw th dpi, rfl, rfl, ?_⟩
  exact pyRound3_idem _

/-- Witness for C3 at the spec example input. -/
theorem spine_pixels_use_rounded_spine_witness :
    KDPCalculator.calculate_spine_width 250 ("white")
        = Except.ok (pyRound3 (250 * 0.002252))
    ∧ ∃ d, KDPCalculator.calculate_cover_dimensions 6 9 250 ("white")
        ("paperback") 300 = Except.ok d
      ∧ d.spine_width_pixels = pyInt (pyRound3 (250 * 0.002252) * 300)
      ∧ d.width_pixels = pyInt ((2 * 6 + pyRound3 (250 * 0.002252) + 2 * 0.125) * 300)
      ∧ d.spine_width_inches = pyRound3 (250 * 0.002252) :=
  spine_pixels_use_rounded_spine 6 9 250 ("white") 0.002252 300 (by norm_num)
    (by norm_num) lookup_white

/-- Counterexample for C3 as stated: at 31 pages of white paper and 300
dpi the code truncates the rounded spine 0.07 to 21 pixels, while the
unrounded product 0.069812 truncates to 20 pixels, so the pixel math does
not retain full precision. -/
theorem spine_pixels_not_full_precision_cex :
    ∃ d, KDPCalculator.calculate_cover_dimensions 6 9 31 ("white") ("paperback") 300
        = Except.ok d
      ∧ d.spine_width_pixels = 21
      ∧ pyInt ((31 * 0.002252 : ℚ) * 300) = 20
      ∧ d.spine_width_pixels ≠ pyInt ((31 * 0.002252 : ℚ) * 300) := by
  refine ⟨_, calculate_cover_dimensions_paperback (by norm_num) (by norm_num)
    lookup_white 6 9 300, ?_, ?_, ?_⟩ <;>
    norm_num [pyRound3, pyRoundHalfEven, pyInt]

/-- Claim C10: for paperback inputs with a legal page count, a known paper
type, positive trims and positive dpi, the KDPCalculator and the
CoverGenerator cover dimension implementations return the same cover
width, cover height and spine width pixel values; the agreement does not
extend to hardcover, where at the example input the KDP 1.5 inch case
wrap yields 4743 width pixels but the CoverGenerator 0.25 inch board
allowance yields 4068. -/
theorem cover_dimension_implementations_agree (tw th : ℚ) (p : ℤ)
    (paper : String) (dpi : ℤ) (htw : 0 < tw) (hth : 0 < th) (hdpi : 0 < dpi)
    (h1 : 24 ≤ p) (h2 : p ≤ 828)
    (hp : paper ∈ [("white"), ("cream"), ("color"), ("standard_color")]) :
    (∃ d1 d2,
      KDPCalculator.calculate_cover_dimensions tw th p paper ("paperback") dpi
        = Except.ok d1
      ∧ CoverGenerator.calculate_cover_dimensions tw th p paper ("paperback") dpi
        = Except.ok d2
      ∧ d1.width_pixels = d2.cover_width
      ∧ d1.height_pixels = d2.cover_height
      ∧ d1.spine_width_pixels = d2.spine_width)
    ∧ (∃ d1 d2,
      KDPCalculator.calculate_cover_dimensions 6 9 250 ("white") ("hardback") 300
        = Except.ok d1
      ∧ CoverGenerator.calculate_cover_dimensions 6 9 250 ("white") ("hardcover") 300
        = Except.ok d2
      ∧ d1.width_pixels = 4743
      ∧ d2.cover_width = 4068
      ∧ d1.width_pixels ≠ d2.cover_width) := by
  constructor
  · obtain ⟨c, hcl, -⟩ := lookup_coeff_of_known hp
    refine ⟨_, _, calculate_cover_dimensions_paperback h1 h2 hcl tw th dpi,
      CG_calculate_cover_dimensions_paperback h1 h2 hcl tw th dpi, ?_, ?_, rfl⟩
    · show pyInt ((2 * tw + pyRound3 (p * c) + 2 * BLEED_SIZE) * dpi)
        = pyInt ((0.125 * 2 + tw * 2 + pyRound3 (p * c)) * dpi)
      congr 1
      simp only [BLEED_SIZE]
      ring
    · show pyInt ((th + 2 * BLEED_SIZE) * dpi) = pyInt ((0.125 * 2 + th) * dpi)
      congr 1
      simp only [BLEED_SIZE]
      ring
  · refine ⟨_, _,
      calculate_cover_dimensions_hardback (by norm_num) (by norm_num)
        lookup_white 6 9 300,
      CG_calculate_cover_dimensions_hardcover (by norm_num) (by norm_num)
        lookup_white 6 9 300, ?_, ?_, ?_⟩ <;>
      norm_num [pyRound3, pyRoundHalfEven, pyInt, BLEED_SIZE]

/-- Witness for C10 at the standard six by nine 250 page white paperback. -/
theorem cover_dimension_implementations_agree_witness :
    ∃ d1 d2,
      KDPCalculator.calculate_cover_dimensions 6 9 250 ("white") ("paperback") 300
        = Except.ok d1
      ∧ CoverGenerator.calculate_cover_dimensions 6 9 250 ("white") ("paperback") 300
        = Except.ok d2
      ∧ d1.width_pixels = d2.cover_width
      ∧ d1.height_pixels = d2.cover_height
      ∧ d1.spine_width_pixels = d2.spine_width :=
  (cover_dimension_implementations_agree 6 9 250 ("white") 300 (by norm_num)
    (by norm_num) (by norm_num) (by norm_num) (by norm_num) (by simp)).1

/-- Claim C4: the layout placement operations are meant never to raise
over their documented domain, but the spine text path of
_add_text_overlays references the undefined names page_count and dpi, so
every paperback or hardback call with a nonempty author raises NameError
instead of returning; the other operations do return without raising
(optimal text color returns black or white on any nonempty sampled
region, text wrapping and barcode placement always return a value), and
barcode placement on an e-book cover returns the image unchanged. -/
theorem layout_engine_spine_text_raises :
    (∀ (cover_type author : String), author ≠ "" →
        cover_type ∈ [("paperback"), ("hardback")] →
        CoverGenerator.add_text_overlays_spine cover_type author
          = Except.error ⟨"NameError", "name page_count is not defined"⟩)
    ∧ CoverGenerator.add_text_overlays_spine ("paperback") ("Author Name")
        = Except.error ⟨"NameError", "name page_count is not defined"⟩
    ∧ (∀ pixels : List (ℤ × ℤ × ℤ), pixels ≠ [] →
      ∃ color, CoverGenerator.get_optimal_text_color pixels = Except.ok color
        ∧ (color = (0, 0, 0) ∨ color = (255, 255, 255)))
    ∧ (∀ (text : String) (measure : String → ℤ) (max_width : ℤ),
        ∃ ls, CoverGenerator.wrap_text text measure max_width = ls)
    ∧ (∀ (img : PILImage) (cover_type : String) (dpi : ℤ),
        ∃ img2, CoverGenerator.add_barcode_safe_area img cover_type dpi = img2)
    ∧ (∀ (img : PILImage) (dpi : ℤ),
        CoverGenerator.add_barcode_safe_area img ("ebook") dpi = img) := by
  have hspine : ∀ (cover_type author : String), author ≠ "" →
      cover_type ∈ [("paperback"), ("hardback")] →
      CoverGenerator.add_text_overlays_spine cover_type author
        = Except.error ⟨"NameError", "name page_count is not defined"⟩ := by
    intro ct a ha hm
    rw [CoverGenerator.add_text_overlays_spine, if_pos ⟨ha, hm⟩]
  refine ⟨hspine, hspine ("paperback") ("Author Name") (by decide) (by decide),
    ?_, fun t m mw => ⟨_, rfl⟩, fun i ct d => ⟨_, rfl⟩, fun i d => ?_⟩
  · intro pixels hne
    rw [CoverGenerator.get_optimal_text_color, CoverGenerator.calculate_luminance,
      if_neg (by simpa using hne)]
    refine ⟨_, rfl, ?_⟩
    split_ifs <;> first | exact Or.inl rfl | exact Or.inr rfl
  · rw [CoverGenerator.add_barcode_safe_area, if_pos (by decide)]

/-- Witness for C4: the spine text path raises at the concrete failing
input, and a one-pixel black region yields a text color. -/
theorem layout_engine_spine_text_raises_witness :
    CoverGenerator.add_text_overlays_spine ("hardback") ("Jane Doe")
        = Except.error ⟨"NameError", "name page_count is not defined"⟩
    ∧ (∃ color, CoverGenerator.get_optimal_text_color [((0 : ℤ), (0 : ℤ), (0 : ℤ))]
        = Except.ok color ∧ (color = (0, 0, 0) ∨ color = (255, 255, 255))) :=
  ⟨layout_engine_spine_text_raises.1 ("hardback") ("Jane Doe") (by decide) (by decide),
   layout_engine_spine_text_raises.2.2.1 [(0, 0, 0)] (by simp)⟩

/-- Truncated pixel constants used by the barcode safe area at 300 dpi. -/
lemma pyInt_two_inch : pyInt (2.0 * ((300 : ℤ) : ℚ)) = 600 := by
  norm_num [pyInt]

lemma pyInt_barcode_height : pyInt (1.2 * ((300 : ℤ) : ℚ)) = 360 := by
  norm_num [pyInt]

lemma pyInt_quarter_inch : pyInt (0.25 * ((300 : ℤ) : ℚ)) = 75 := by
  norm_num [pyInt]

lemma pyInt_hardback_bottom : pyInt (0.76 * ((300 : ℤ) : ℚ)) = 228 := by
  norm_num [pyInt]

/-- Claim C9: on any paperback cover image wide and tall enough to hold
it, the barcode safe area is the 600 by 360 pixel (2.0 by 1.2 inch at 300
dpi) rectangle inset 75 pixels (0.25 inch) from the bottom edge and from
the right edge of the back-cover region, lying entirely inside the back
cover region and strictly left of the spine region; for a hardback the
bottom inset is 228 pixels (0.76 inch) and the side inset 75 pixels. -/
theorem barcode_safe_area_geometry (img : PILImage)
    (hw : 1416 ≤ img.width) (hh : 435 ≤ img.height) :
    (∃ x1 y1 x2 y2,
      CoverGenerator.add_barcode_safe_area img ("paperback") 300
        = { img with rects := img.rects ++ [(x1, y1, x2, y2), (x1, y1, x2, y2)] }
      ∧ x2 - x1 = 600 ∧ y2 - y1 = 360
      ∧ x2 = (img.width - 66) / 2 - 75
      ∧ y2 = img.height - 75
      ∧ 0 ≤ x1 ∧ 0 ≤ y1 ∧ y2 ≤ img.height
      ∧ x2 < (img.width - 66) / 2)
    ∧ (∀ img2 : PILImage, ∃ x1 y1 x2 y2,
      CoverGenerator.add_barcode_safe_area img2 ("hardback") 300
        = { img2 with rects := img2.rects ++ [(x1, y1, x2, y2), (x1, y1, x2, y2)] }
      ∧ y2 = img2.height - 228
      ∧ x2 = 900 + (img2.width - 2 * 900 - 450) / 2 - 75
      ∧ x2 - x1 = 600 ∧ y2 - y1 = 360) := by
  constructor
  · refine ⟨(img.width - 66) / 2 - 600 - 75, img.height - 360 - 75,
      (img.width - 66) / 2 - 75, img.height - 75, ?_, by omega, by omega,
      rfl, rfl, by omega, by omega, by omega, by omega⟩
    rw [CoverGenerator.add_barcode_safe_area, if_neg (by decide)]
    simp only [CoverGenerator.PAPERBACK_SPINE_WIDTH, pyInt_two_inch,
      pyInt_barcode_height, pyInt_quarter_inch, pyInt_hardback_bottom]
    simp
  · intro img2
    refine ⟨900 + (img2.width - 2 * 900 - 450) / 2 - 600 - 75,
      img2.height - 360 - 228,
      900 + (img2.width - 2 * 900 - 450) / 2 - 75,
      img2.height - 228, ?_, rfl, rfl, by omega, by omega⟩
    rw [CoverGenerator.add_barcode_safe_area, if_neg (by decide)]
    simp only [CoverGenerator.ALT_HARDBACK_FLAP_WIDTH,
      CoverGenerator.ALT_HARDBACK_SPINE_WIDTH, pyInt_two_inch,
      pyInt_barcode_height, pyInt_quarter_inch, pyInt_hardback_bottom]
    simp

/-- Witness for C9 on the standard 3666 by 2700 paperback wrap. -/
theorem barcode_safe_area_geometry_witness :
    ∃ x1 y1 x2 y2,
      CoverGenerator.add_barcode_safe_area ⟨3666, 2700, []⟩ ("paperback") 300
        = { width := 3666, height := 2700,
            rects := [] ++ [(x1, y1, x2, y2), (x1, y1, x2, y2)] }
      ∧ x2 - x1 = 600 ∧ y2 - y1 = 360
      ∧ x2 = ((3666 : ℤ) - 66) / 2 - 75
      ∧ y2 = (2700 : ℤ) - 75
      ∧ 0 ≤ x1 ∧ 0 ≤ y1 ∧ y2 ≤ (2700 : ℤ)
      ∧ x2 < ((3666 : ℤ) - 66) / 2 :=
  (barcode_safe_area_geometry ⟨3666, 2700, []⟩ (by norm_num) (by norm_num)).1
